import Mathlib

/-!
# Verification of the session-dispatch layer (`session/replica_session.go`)

Shallow embedding of the per-server RPC façade (`ReplicaSession`) and the
connection-pool manager (`ReplicaManager`) of the pegasus go client, together
with proofs about the spec's claims.

The generic call primitive `nodeSession.callWithGpid` and the thrift-generated
idl types (`idl/base`, `idl/rrdb`) are external collaborators: they are
modelled as opaque data / a function parameter, following §6 of the spec.
Everything that `replica_session.go` itself does (request-envelope
construction, operation tags, the unchecked type assertion, the pool's
map handling, bulk close) is translated directly from the source.
-/

set_option autoImplicit false

namespace PegasusSession

/-- `base.Gpid` (external idl type): a (table-id, partition-index) pair,
forwarded verbatim by this layer. -/
structure Gpid where
  appid : Int
  partitionIndex : Int
deriving DecidableEq

/-- `base.Blob` (external idl type): an opaque immutable byte sequence. -/
structure Blob where
  data : List Nat
deriving DecidableEq

/-- A Go `context.Context`, opaque to this layer and forwarded verbatim. -/
structure Context where
  id : Nat
deriving DecidableEq

/-- A Go `error` value; opaque, compared only by identity. `Option GoError`
models a possibly-nil error (`none` = nil). -/
structure GoError where
  code : Nat
deriving DecidableEq

/-- `rrdb.ReadResponse` (external idl type): opaque success payload of Get. -/
structure ReadResponse where
  val : Nat
deriving DecidableEq

/-- `rrdb.UpdateResponse` (external idl type): opaque success payload of
Put / Del / MultiSet. -/
structure UpdateResponse where
  val : Nat
deriving DecidableEq

/-- `rrdb.MultiGetResponse` (external idl type). -/
structure MultiGetResponse where
  val : Nat
deriving DecidableEq

/-- `rrdb.MultiRemoveResponse` (external idl type). -/
structure MultiRemoveResponse where
  val : Nat
deriving DecidableEq

/-- `rrdb.TTLResponse` (external idl type). -/
structure TTLResponse where
  val : Nat
deriving DecidableEq

/-- `rrdb.ScanResponse` (external idl type): success payload of
GetScanner / Scan. -/
structure ScanResponse where
  val : Nat
deriving DecidableEq

/-- `rrdb.UpdateRequest` (external idl type); `replica_session.go` builds it
as `&rrdb.UpdateRequest{Key: key, Value: value}`. -/
structure UpdateRequest where
  key : Blob
  value : Blob
deriving DecidableEq

/-- `rrdb.MultiGetRequest` (external idl type, opaque here). -/
structure MultiGetRequest where
  val : Nat
deriving DecidableEq

/-- `rrdb.MultiPutRequest` (external idl type, opaque here). -/
structure MultiPutRequest where
  val : Nat
deriving DecidableEq

/-- `rrdb.MultiRemoveRequest` (external idl type, opaque here). -/
structure MultiRemoveRequest where
  val : Nat
deriving DecidableEq

/-- `rrdb.GetScannerRequest` (external idl type, opaque here). -/
structure GetScannerRequest where
  val : Nat
deriving DecidableEq

/-- `rrdb.ScanRequest` (external idl type, opaque here). -/
structure ScanRequest where
  val : Nat
deriving DecidableEq

/-- The request envelopes constructed by the typed methods of
`replica_session.go` (e.g. `&rrdb.RrdbGetArgs{Key: key}`), one constructor per
`rrdb.Rrdb*Args` type used there. -/
inductive CallArgs where
  | rrdbGetArgs (key : Blob)
  | rrdbPutArgs (update : UpdateRequest)
  | rrdbRemoveArgs (key : Blob)
  | rrdbMultiGetArgs (request : MultiGetRequest)
  | rrdbMultiPutArgs (request : MultiPutRequest)
  | rrdbMultiRemoveArgs (request : MultiRemoveRequest)
  | rrdbTTLArgs (key : Blob)
  | rrdbGetScannerArgs (request : GetScannerRequest)
  | rrdbScanArgs (request : ScanRequest)
  | rrdbClearScannerArgs (contextId : Int)
deriving DecidableEq

/-- The dynamic value behind the `interface{}` result of `callWithGpid`: the
Result Union of §3. Each `rrdb.Rrdb*Result` thrift result struct carries an
optional `Success` field (`none` = unset, i.e. a non-success discriminant);
`otherValue` stands for a dynamic type recognized by none of the methods'
type assertions. -/
inductive CallValue where
  | rrdbGetResult (success : Option ReadResponse)
  | rrdbPutResult (success : Option UpdateResponse)
  | rrdbRemoveResult (success : Option UpdateResponse)
  | rrdbMultiGetResult (success : Option MultiGetResponse)
  | rrdbMultiPutResult (success : Option UpdateResponse)
  | rrdbMultiRemoveResult (success : Option MultiRemoveResponse)
  | rrdbTTLResult (success : Option TTLResponse)
  | rrdbGetScannerResult (success : Option ScanResponse)
  | rrdbScanResult (success : Option ScanResponse)
  | rrdbClearScannerResult
  | otherValue
deriving DecidableEq

/-- One invocation of the generic call primitive, as observed at the
`callWithGpid` boundary: the context, gpid, args and operation name passed. -/
structure CallRecord where
  ctx : Context
  gpid : Gpid
  args : CallArgs
  name : String
deriving DecidableEq

/-- The Go type assertion with discarded ok flag,
`ret, _ := result.(*rrdb.RrdbGetResult)`: yields the pointed-to result struct
(its optional Success field) when the dynamic type matches, and the nil
pointer (outer `none`) otherwise — including when `result` itself is nil. -/
def asRrdbGetResult : Option CallValue → Option (Option ReadResponse)
  | some (CallValue.rrdbGetResult s) => some s
  | _ => none

/-- `ret, _ := result.(*rrdb.RrdbPutResult)`. -/
def asRrdbPutResult : Option CallValue → Option (Option UpdateResponse)
  | some (CallValue.rrdbPutResult s) => some s
  | _ => none

/-- `ret, _ := result.(*rrdb.RrdbRemoveResult)`. -/
def asRrdbRemoveResult : Option CallValue → Option (Option UpdateResponse)
  | some (CallValue.rrdbRemoveResult s) => some s
  | _ => none

/-- `ret, _ := result.(*rrdb.RrdbMultiGetResult)`. -/
def asRrdbMultiGetResult : Option CallValue → Option (Option MultiGetResponse)
  | some (CallValue.rrdbMultiGetResult s) => some s
  | _ => none

/-- `ret, _ := result.(*rrdb.RrdbMultiPutResult)`. -/
def asRrdbMultiPutResult : Option CallValue → Option (Option UpdateResponse)
  | some (CallValue.rrdbMultiPutResult s) => some s
  | _ => none

/-- `ret, _ := result.(*rrdb.RrdbMultiRemoveResult)`. -/
def asRrdbMultiRemoveResult : Option CallValue → Option (Option MultiRemoveResponse)
  | some (CallValue.rrdbMultiRemoveResult s) => some s
  | _ => none

/-- `ret, _ := result.(*rrdb.RrdbTTLResult)`. -/
def asRrdbTTLResult : Option CallValue → Option (Option TTLResponse)
  | some (CallValue.rrdbTTLResult s) => some s
  | _ => none

/-- `ret, _ := result.(*rrdb.RrdbGetScannerResult)`. -/
def asRrdbGetScannerResult : Option CallValue → Option (Option ScanResponse)
  | some (CallValue.rrdbGetScannerResult s) => some s
  | _ => none

/-- `ret, _ := result.(*rrdb.RrdbScanResult)`. -/
def asRrdbScanResult : Option CallValue → Option (Option ScanResponse)
  | some (CallValue.rrdbScanResult s) => some s
  | _ => none

/-- Modelled from the spec: `GetSuccess()` of the thrift-generated result
structs (`idl/rrdb`, a package of this repository not under src/). Per §7,
extracting the success payload from a nil result pointer or an unset Success
arm yields the zero-valued (absent) success object — the nil pointer — rather
than reporting an error. -/
def getSuccess {α : Type} : Option (Option α) → Option α
  | some s => s
  | none => none

/-- `ReplicaSession` wraps one `*nodeSession` (external collaborator); the
only facet of it this layer consumes is the generic call primitive
`callWithGpid(ctx, gpid, args, name) → (result, err)` of §6, modelled as a
function-valued field. -/
structure ReplicaSession where
  call : Context → Gpid → CallArgs → String → Option CallValue × Option GoError

/-- `func (rs *ReplicaSession) Get(ctx, gpid, key) (*rrdb.ReadResponse, error)`,
instrumented with the list of generic calls the invocation issues. -/
def ReplicaSession.Get (rs : ReplicaSession) (ctx : Context) (gpid : Gpid)
    (key : Blob) : (Option ReadResponse × Option GoError) × List CallRecord :=
  let args := CallArgs.rrdbGetArgs key
  let out := rs.call ctx gpid args "RPC_RRDB_RRDB_GET"
  let calls := [CallRecord.mk ctx gpid args "RPC_RRDB_RRDB_GET"]
  ((match out.2 with
    | some e => (none, some e)
    | none => (getSuccess (asRrdbGetResult out.1), none)), calls)

/-- `func (rs *ReplicaSession) Put(ctx, gpid, key, value)
(*rrdb.UpdateResponse, error)`, instrumented with the issued calls. -/
def ReplicaSession.Put (rs : ReplicaSession) (ctx : Context) (gpid : Gpid)
    (key value : Blob) : (Option UpdateResponse × Option GoError) × List CallRecord :=
  let update := UpdateRequest.mk key value
  let args := CallArgs.rrdbPutArgs update
  let out := rs.call ctx gpid args "RPC_RRDB_RRDB_PUT"
  let calls := [CallRecord.mk ctx gpid args "RPC_RRDB_RRDB_PUT"]
  ((match out.2 with
    | some e => (none, some e)
    | none => (getSuccess (asRrdbPutResult out.1), none)), calls)

/-- `func (rs *ReplicaSession) Del(ctx, gpid, key)
(*rrdb.UpdateResponse, error)`, instrumented with the issued calls. -/
def ReplicaSession.Del (rs : ReplicaSession) (ctx : Context) (gpid : Gpid)
    (key : Blob) : (Option UpdateResponse × Option GoError) × List CallRecord :=
  let args := CallArgs.rrdbRemoveArgs key
  let out := rs.call ctx gpid args "RPC_RRDB_RRDB_REMOVE"
  let calls := [CallRecord.mk ctx gpid args "RPC_RRDB_RRDB_REMOVE"]
  ((match out.2 with
    | some e => (none, some e)
    | none => (getSuccess (asRrdbRemoveResult out.1), none)), calls)

/-- `func (rs *ReplicaSession) MultiGet(ctx, gpid, request)
(*rrdb.MultiGetResponse, error)`, instrumented with the issued calls. -/
def ReplicaSession.MultiGet (rs : ReplicaSession) (ctx : Context) (gpid : Gpid)
    (request : MultiGetRequest) :
    (Option MultiGetResponse × Option GoError) × List CallRecord :=
  let args := CallArgs.rrdbMultiGetArgs request
  let out := rs.call ctx gpid args "RPC_RRDB_RRDB_MULTI_GET"
  let calls := [CallRecord.mk ctx gpid args "RPC_RRDB_RRDB_MULTI_GET"]
  ((match out.2 with
    | some e => (none, some e)
    | none => (getSuccess (asRrdbMultiGetResult out.1), none)), calls)

/-- `func (rs *ReplicaSession) MultiSet(ctx, gpid, request)
(*rrdb.UpdateResponse, error)`, instrumented with the issued calls. -/
def ReplicaSession.MultiSet (rs : ReplicaSession) (ctx : Context) (gpid : Gpid)
    (request : MultiPutRequest) :
    (Option UpdateResponse × Option GoError) × List CallRecord :=
  let args := CallArgs.rrdbMultiPutArgs request
  let out := rs.call ctx gpid args "RPC_RRDB_RRDB_MULTI_PUT"
  let calls := [CallRecord.mk ctx gpid args "RPC_RRDB_RRDB_MULTI_PUT"]
  ((match out.2 with
    | some e => (none, some e)
    | none => (getSuccess (asRrdbMultiPutResult out.1), none)), calls)

/-- `func (rs *ReplicaSession) MultiDelete(ctx, gpid, request)
(*rrdb.MultiRemoveResponse, error)`, instrumented with the issued calls. -/
def ReplicaSession.MultiDelete (rs : ReplicaSession) (ctx : Context) (gpid : Gpid)
    (request : MultiRemoveRequest) :
    (Option MultiRemoveResponse × Option GoError) × List CallRecord :=
  let args := CallArgs.rrdbMultiRemoveArgs request
  let out := rs.call ctx gpid args "RPC_RRDB_RRDB_MULTI_REMOVE"
  let calls := [CallRecord.mk ctx gpid args "RPC_RRDB_RRDB_MULTI_REMOVE"]
  ((match out.2 with
    | some e => (none, some e)
    | none => (getSuccess (asRrdbMultiRemoveResult out.1), none)), calls)

/-- `func (rs *ReplicaSession) TTL(ctx, gpid, key) (*rrdb.TTLResponse, error)`,
instrumented with the issued calls. -/
def ReplicaSession.TTL (rs : ReplicaSession) (ctx : Context) (gpid : Gpid)
    (key : Blob) : (Option TTLResponse × Option GoError) × List CallRecord :=
  let args := CallArgs.rrdbTTLArgs key
  let out := rs.call ctx gpid args "RPC_RRDB_RRDB_TTL"
  let calls := [CallRecord.mk ctx gpid args "RPC_RRDB_RRDB_TTL"]
  ((match out.2 with
    | some e => (none, some e)
    | none => (getSuccess (asRrdbTTLResult out.1), none)), calls)

/-- `func (rs *ReplicaSession) GetScanner(ctx, gpid, request)
(*rrdb.ScanResponse, error)`, instrumented with the issued calls. -/
def ReplicaSession.GetScanner (rs : ReplicaSession) (ctx : Context) (gpid : Gpid)
    (request : GetScannerRequest) :
    (Option ScanResponse × Option GoError) × List CallRecord :=
  let args := CallArgs.rrdbGetScannerArgs request
  let out := rs.call ctx gpid args "RPC_RRDB_RRDB_GET_SCANNER"
  let calls := [CallRecord.mk ctx gpid args "RPC_RRDB_RRDB_GET_SCANNER"]
  ((match out.2 with
    | some e => (none, some e)
    | none => (getSuccess (asRrdbGetScannerResult out.1), none)), calls)

/-- `func (rs *ReplicaSession) Scan(ctx, gpid, request)
(*rrdb.ScanResponse, error)`, instrumented with the issued calls. -/
def ReplicaSession.Scan (rs : ReplicaSession) (ctx : Context) (gpid : Gpid)
    (request : ScanRequest) :
    (Option ScanResponse × Option GoError) × List CallRecord :=
  let args := CallArgs.rrdbScanArgs request
  let out := rs.call ctx gpid args "RPC_RRDB_RRDB_SCAN"
  let calls := [CallRecord.mk ctx gpid args "RPC_RRDB_RRDB_SCAN"]
  ((match out.2 with
    | some e => (none, some e)
    | none => (getSuccess (asRrdbScanResult out.1), none)), calls)

/-- `func (rs *ReplicaSession) ClearScanner(ctx, gpid, contextId) error`:
the result value is discarded (`_, err := ...`); only the error is returned. -/
def ReplicaSession.ClearScanner (rs : ReplicaSession) (ctx : Context) (gpid : Gpid)
    (contextId : Int) : Option GoError × List CallRecord :=
  let args := CallArgs.rrdbClearScannerArgs contextId
  let out := rs.call ctx gpid args "RPC_RRDB_RRDB_CLEAR_SCANNER"
  let calls := [CallRecord.mk ctx gpid args "RPC_RRDB_RRDB_CLEAR_SCANNER"]
  ((match out.2 with
    | some e => some e
    | none => none), calls)

/-! ## The session pool (`ReplicaManager`)

Here a `ReplicaSession` matters only as an identity-bearing object created by
`newReplicaSession(addr)`; Go pointer identity is modelled by an allocation
counter carried in the pool state. The whole body of each pool method runs
under the pool's exclusive `sync.RWMutex` (`Lock`/`RLock` ... `defer Unlock`),
so every concurrent execution of pool operations is equivalent to some
sequential interleaving of their atomic bodies; the pool is therefore modelled
as a sequential state machine over `ReplicaManager` states. -/

/-- A `*ReplicaSession` as the pool sees it: `newReplicaSession(addr)` wraps a
fresh `nodeSession` for `addr`; `id` models the Go pointer identity of the
allocation. -/
structure SessionRef where
  id : Nat
  addr : String
deriving DecidableEq

/-- `ReplicaManager`: the rpc-address → replica map, plus the allocation
counter that models pointer freshness of `newReplicaSession`. The map is an
association list that `GetReplica` extends only when the key is absent, so it
holds at most one binding per address, as a Go map does. -/
structure ReplicaManager where
  replicas : List (String × SessionRef)
  nextId : Nat
deriving DecidableEq

/-- `func NewReplicaManager() *ReplicaManager`: empty map. -/
def NewReplicaManager : ReplicaManager :=
  { replicas := [], nextId := 0 }

/-- `func (rm *ReplicaManager) GetReplica(addr string) *ReplicaSession`:
under the exclusive lock, create and register a new session if the address has
none, then return the registered session. Returns the session together with
the updated pool state. -/
def ReplicaManager.GetReplica (rm : ReplicaManager) (addr : String) :
    SessionRef × ReplicaManager :=
  match rm.replicas.lookup addr with
  | some s => (s, rm)
  | none =>
      let s : SessionRef := { id := rm.nextId, addr := addr }
      (s, { replicas := (addr, s) :: rm.replicas, nextId := rm.nextId + 1 })

/-- `func (rm *ReplicaManager) ReplicaCount() int`: `len(rm.replicas)`. -/
def ReplicaManager.ReplicaCount (rm : ReplicaManager) : Nat :=
  rm.replicas.length

/-- Observable events of the bulk-close path: `r.Close()` invoked on a
session, its completion signal received (`<-r.Close()`), and
`ReplicaManager.Close` returning to its caller. -/
inductive CloseEvent where
  | invoked (sid : Nat)
  | completed (sid : Nat)
  | returned
deriving DecidableEq

/-- `func (rm *ReplicaManager) Close() error`: under the exclusive lock,
`for _, r := range rm.replicas { <-r.Close() }; return nil` — for each
registered session the asynchronous close primitive is invoked and its
completion signal awaited, the value carried by the signal is discarded, the
map is not mutated, and nil is returned. `sessErr` models what each session's
completion signal would report (modelled from the spec: the session-level
close primitive of §6 is external, and §7 allows it to fail); the embedding
returns the Go return value, the pool state after the call, and the event
trace ending in the return. The binder `_sessErr` is deliberately unused:
the source discards the received signal value. -/
def ReplicaManager.Close (rm : ReplicaManager) (_sessErr : Nat → Option GoError) :
    Option GoError × ReplicaManager × List CloseEvent :=
  let trace := rm.replicas.flatMap fun p =>
    [CloseEvent.invoked p.2.id, CloseEvent.completed p.2.id]
  (none, rm, trace ++ [CloseEvent.returned])

/-- A sequence of `GetReplica` calls against a pool, keeping only the final
state (the driver for trace properties over many addresses). -/
def runGets (rm : ReplicaManager) : List String → ReplicaManager
  | [] => rm
  | addr :: rest => runGets (rm.GetReplica addr).2 rest

/-- `n` serialized `GetReplica` calls for one address `addr`: returns the
list of sessions handed back, in call order, and the final state. -/
def runSame (rm : ReplicaManager) (addr : String) : Nat → List SessionRef × ReplicaManager
  | 0 => ([], rm)
  | n + 1 =>
      ((rm.GetReplica addr).1 :: (runSame (rm.GetReplica addr).2 addr n).1,
       (runSame (rm.GetReplica addr).2 addr n).2)

/-- A sample call primitive that answers every operation with a successful
result of the matching dynamic type (used to instantiate theorems at concrete
inputs). -/
def sampleSuccessSession : ReplicaSession :=
  ReplicaSession.mk fun _ _ args _ =>
    (match args with
     | CallArgs.rrdbGetArgs _ =>
         some (CallValue.rrdbGetResult (some (ReadResponse.mk 1)))
     | CallArgs.rrdbPutArgs _ =>
         some (CallValue.rrdbPutResult (some (UpdateResponse.mk 2)))
     | CallArgs.rrdbRemoveArgs _ =>
         some (CallValue.rrdbRemoveResult (some (UpdateResponse.mk 3)))
     | CallArgs.rrdbMultiGetArgs _ =>
         some (CallValue.rrdbMultiGetResult (some (MultiGetResponse.mk 4)))
     | CallArgs.rrdbMultiPutArgs _ =>
         some (CallValue.rrdbMultiPutResult (some (UpdateResponse.mk 5)))
     | CallArgs.rrdbMultiRemoveArgs _ =>
         some (CallValue.rrdbMultiRemoveResult (some (MultiRemoveResponse.mk 6)))
     | CallArgs.rrdbTTLArgs _ =>
         some (CallValue.rrdbTTLResult (some (TTLResponse.mk 7)))
     | CallArgs.rrdbGetScannerArgs _ =>
         some (CallValue.rrdbGetScannerResult (some (ScanResponse.mk 8)))
     | CallArgs.rrdbScanArgs _ =>
         some (CallValue.rrdbScanResult (some (ScanResponse.mk 9)))
     | CallArgs.rrdbClearScannerArgs _ =>
         some CallValue.rrdbClearScannerResult,
     none)

/-- A sample call primitive that always reports a transport failure. -/
def sampleErrorSession : ReplicaSession :=
  ReplicaSession.mk fun _ _ _ _ => (none, some (GoError.mk 9))

/-! ## Supporting lemmas about the pool -/

/-- If an address is already bound in the map, `GetReplica` returns the bound
session and leaves the pool unchanged. -/
lemma ReplicaManager.getReplica_of_lookup (rm : ReplicaManager) (addr : String)
    (s : SessionRef) (h : rm.replicas.lookup addr = some s) :
    rm.GetReplica addr = (s, rm) := by
  unfold ReplicaManager.GetReplica
  rw [h]

/-- If an address is not yet bound, `GetReplica` constructs a fresh session
and registers it. -/
lemma ReplicaManager.getReplica_of_lookup_none (rm : ReplicaManager) (addr : String)
    (h : rm.replicas.lookup addr = none) :
    rm.GetReplica addr =
      (SessionRef.mk rm.nextId addr,
       ReplicaManager.mk ((addr, SessionRef.mk rm.nextId addr) :: rm.replicas)
         (rm.nextId + 1)) := by
  unfold ReplicaManager.GetReplica
  rw [h]

/-- After `GetReplica addr`, the address is bound to the returned session. -/
lemma ReplicaManager.lookup_getReplica_self (rm : ReplicaManager) (addr : String) :
    ((rm.GetReplica addr).2).replicas.lookup addr = some (rm.GetReplica addr).1 := by
  unfold ReplicaManager.GetReplica
  cases h : rm.replicas.lookup addr with
  | some s => simpa using h
  | none => simp [List.lookup_cons]

/-- A key is bound in an association list exactly when it occurs among the
mapped-out keys. -/
lemma lookup_isSome_iff_mem_keys (l : List (String × SessionRef)) (a : String) :
    (l.lookup a).isSome ↔ a ∈ l.map Prod.fst := by
  induction l with
  | nil => simp [List.lookup]
  | cons p t ih =>
      obtain ⟨k, v⟩ := p
      by_cases hk : a = k
      · subst hk
        simp [List.lookup_cons]
      · simp [List.lookup_cons, beq_false_of_ne hk, ih, hk]

/-- `GetReplica` preserves key-uniqueness of the map. -/
lemma ReplicaManager.getReplica_keys_nodup (rm : ReplicaManager) (addr : String)
    (h : (rm.replicas.map Prod.fst).Nodup) :
    (((rm.GetReplica addr).2).replicas.map Prod.fst).Nodup := by
  unfold ReplicaManager.GetReplica
  cases hl : rm.replicas.lookup addr with
  | some s => simpa using h
  | none =>
      have hmem : addr ∉ rm.replicas.map Prod.fst := by
        rw [← lookup_isSome_iff_mem_keys, hl]
        simp
      simp only [List.map_cons]
      exact List.nodup_cons.mpr ⟨hmem, h⟩

/-- The key set after `GetReplica addr` is the old key set plus `addr`. -/
lemma ReplicaManager.getReplica_keys_toFinset (rm : ReplicaManager) (addr : String) :
    (((rm.GetReplica addr).2).replicas.map Prod.fst).toFinset =
      insert addr (rm.replicas.map Prod.fst).toFinset := by
  unfold ReplicaManager.GetReplica
  cases hl : rm.replicas.lookup addr with
  | some s =>
      have hmem : addr ∈ rm.replicas.map Prod.fst := by
        rw [← lookup_isSome_iff_mem_keys, hl]
        simp
      simp only []
      rw [Finset.insert_eq_self.mpr (by simpa using hmem)]
  | none => simp

/-- `runGets` accumulates exactly the visited addresses into the key set. -/
lemma runGets_keys_toFinset (addrs : List String) :
    ∀ rm : ReplicaManager,
      ((runGets rm addrs).replicas.map Prod.fst).toFinset =
        (rm.replicas.map Prod.fst).toFinset ∪ addrs.toFinset := by
  induction addrs with
  | nil => intro rm; simp [runGets]
  | cons a rest ih =>
      intro rm
      have step := ReplicaManager.getReplica_keys_toFinset rm a
      calc ((runGets rm (a :: rest)).replicas.map Prod.fst).toFinset
          = (((rm.GetReplica a).2).replicas.map Prod.fst).toFinset ∪ rest.toFinset := by
            simpa [runGets] using ih (rm.GetReplica a).2
        _ = insert a (rm.replicas.map Prod.fst).toFinset ∪ rest.toFinset := by rw [step]
        _ = (rm.replicas.map Prod.fst).toFinset ∪ (a :: rest).toFinset := by
            simp [Finset.insert_union, Finset.union_insert]

/-- `runGets` preserves key-uniqueness. -/
lemma runGets_keys_nodup (addrs : List String) :
    ∀ rm : ReplicaManager, (rm.replicas.map Prod.fst).Nodup →
      ((runGets rm addrs).replicas.map Prod.fst).Nodup := by
  induction addrs with
  | nil => intro rm h; simpa [runGets] using h
  | cons a rest ih =>
      intro rm h
      simpa [runGets] using ih (rm.GetReplica a).2 (rm.getReplica_keys_nodup a h)

/-- With the address permanently bound, repeated `GetReplica` calls return the
bound session every time without touching the state. -/
lemma runSame_of_lookup (rm : ReplicaManager) (addr : String) (s : SessionRef)
    (h : rm.replicas.lookup addr = some s) :
    ∀ n : Nat, runSame rm addr n = (List.replicate n s, rm) := by
  intro n
  induction n with
  | zero => rfl
  | succ m ih => simp [runSame, rm.getReplica_of_lookup addr s h, ih, List.replicate_succ]

/-! ## Claims about the pool -/

/-- C3: two consecutive `GetReplica` calls for the same address on the same
pool return the identical `ReplicaSession` instance, and the second call
performs no new construction: it returns the previously registered instance
and leaves the pool state untouched. -/
theorem getReplica_idempotent (rm : ReplicaManager) (addr : String) :
    ((rm.GetReplica addr).2).GetReplica addr =
      ((rm.GetReplica addr).1, (rm.GetReplica addr).2) :=
  ReplicaManager.getReplica_of_lookup _ _ _ (rm.lookup_getReplica_self addr)

/-- C4: starting from `NewReplicaManager`, after any sequence of `GetReplica`
calls, `ReplicaCount` equals the number of distinct addresses in the
sequence — each distinct address contributes exactly 1 however often it is
repeated. -/
theorem replicaCount_eq_distinct_addresses (addrs : List String) :
    (runGets NewReplicaManager addrs).ReplicaCount = addrs.toFinset.card := by
  have h1 := runGets_keys_toFinset addrs NewReplicaManager
  have h2 := runGets_keys_nodup addrs NewReplicaManager (by simp [NewReplicaManager])
  have h3 : (runGets NewReplicaManager addrs).ReplicaCount
      = ((runGets NewReplicaManager addrs).replicas.map Prod.fst).length := by
    simp [ReplicaManager.ReplicaCount]
  rw [h3, ← List.toFinset_card_of_nodup h2, h1]
  simp [NewReplicaManager]

/-- C6: `ReplicaManager.Close` returns only after, for every session
registered in the pool at the time of the call, the asynchronous close
primitive has been invoked and its completion signal received: in the
observable event trace, every registered session's invocation and completion
events occur in the segment strictly before the return event. -/
theorem close_awaits_every_session (rm : ReplicaManager) (f : Nat → Option GoError) :
    ∃ l, (rm.Close f).2.2 = l ++ [CloseEvent.returned] ∧
      ∀ p ∈ rm.replicas,
        CloseEvent.invoked p.2.id ∈ l ∧ CloseEvent.completed p.2.id ∈ l := by
  refine ⟨_, rfl, ?_⟩
  intro p hp
  exact ⟨List.mem_flatMap.mpr ⟨p, hp, by simp⟩, List.mem_flatMap.mpr ⟨p, hp, by simp⟩⟩

/-- Witness for C6, at a pool holding one registered session. -/
theorem close_awaits_every_session_witness :
    ∃ l, ((ReplicaManager.mk [("10.0.0.1:34801", SessionRef.mk 0 "10.0.0.1:34801")] 1).Close
        (fun _ => none)).2.2 = l ++ [CloseEvent.returned] ∧
      ∀ p ∈ (ReplicaManager.mk [("10.0.0.1:34801", SessionRef.mk 0 "10.0.0.1:34801")] 1).replicas,
        CloseEvent.invoked p.2.id ∈ l ∧ CloseEvent.completed p.2.id ∈ l :=
  close_awaits_every_session
    (ReplicaManager.mk [("10.0.0.1:34801", SessionRef.mk 0 "10.0.0.1:34801")] 1) (fun _ => none)

/-- C7 (code bug, flagged by §9 of the spec): with one registered session
whose close completion signal reports a failure, `ReplicaManager.Close` still
returns a nil error — the per-session close outcome received from
`<-r.Close()` is discarded and never aggregated into the return value. -/
theorem close_discards_session_close_errors :
    ((ReplicaManager.mk [("10.0.0.1:34801", SessionRef.mk 0 "10.0.0.1:34801")] 1).Close
      (fun _ => some (GoError.mk 7))).1 = none := rfl

/-- C8 counterexample: the pool is not terminal after `Close`. Register one
address, close the pool, then request a different address: a brand-new
session (fresh allocation id 1) is created and registered, growing the pool
from one registered session to two. -/
theorem close_not_terminal_cex :
    (((((NewReplicaManager.GetReplica "10.0.0.1:34801").2).Close
        (fun _ => none)).2.1).GetReplica "10.0.0.2:34801").2.ReplicaCount = 2 ∧
    ((((NewReplicaManager.GetReplica "10.0.0.1:34801").2).Close
        (fun _ => none)).2.1).ReplicaCount = 1 ∧
    (((((NewReplicaManager.GetReplica "10.0.0.1:34801").2).Close
        (fun _ => none)).2.1).GetReplica "10.0.0.2:34801").1.id = 1 := by
  refine ⟨?_, rfl, ?_⟩ <;> decide

/-- C8 amended: `Close` does not put the pool into a terminal state. The map
survives `Close` untouched and a subsequent `GetReplica` for an address with
no binding still constructs and registers a fresh session; not reusing the
pool after shutdown is an obligation on the caller, not enforced by the
code. -/
theorem getReplica_after_close_creates (rm : ReplicaManager)
    (f : Nat → Option GoError) (addr : String)
    (h : ((rm.Close f).2.1).replicas.lookup addr = none) :
    (((rm.Close f).2.1).GetReplica addr).2.ReplicaCount
        = ((rm.Close f).2.1).ReplicaCount + 1 ∧
    (((rm.Close f).2.1).GetReplica addr).2.replicas.lookup addr
        = some ((((rm.Close f).2.1).GetReplica addr).1) := by
  constructor
  · rw [ReplicaManager.getReplica_of_lookup_none _ _ h]
    simp [ReplicaManager.ReplicaCount]
  · exact ReplicaManager.lookup_getReplica_self _ _

/-- Witness for C8's amended claim: close the empty pool, then register a
fresh address. -/
theorem getReplica_after_close_creates_witness :
    ((NewReplicaManager.Close (fun _ => none)).2.1).replicas.lookup "10.0.0.1:34801" = none ∧
    ((((NewReplicaManager.Close (fun _ => none)).2.1).GetReplica "10.0.0.1:34801").2.ReplicaCount
        = ((NewReplicaManager.Close (fun _ => none)).2.1).ReplicaCount + 1 ∧
     (((NewReplicaManager.Close (fun _ => none)).2.1).GetReplica "10.0.0.1:34801").2.replicas.lookup
        "10.0.0.1:34801"
        = some ((((NewReplicaManager.Close (fun _ => none)).2.1).GetReplica "10.0.0.1:34801").1)) :=
  ⟨rfl, getReplica_after_close_creates NewReplicaManager (fun _ => none) "10.0.0.1:34801" rfl⟩

/-- C9: n ≥ 2 `GetReplica` calls racing on the same fresh address — each call
body runs atomically under the pool's exclusive lock, so every concurrent
schedule of same-address calls serializes into this sequential run — together
construct exactly one session (one fresh allocation, one new map entry), and
all n calls return that identical instance. -/
theorem concurrent_getReplica_single_creation (rm : ReplicaManager)
    (addr : String) (n : Nat) (hn : 2 ≤ n)
    (h : rm.replicas.lookup addr = none) :
    (runSame rm addr n).1 = List.replicate n (rm.GetReplica addr).1 ∧
    (runSame rm addr n).2.nextId = rm.nextId + 1 ∧
    (runSame rm addr n).2.ReplicaCount = rm.ReplicaCount + 1 := by
  obtain ⟨m, rfl⟩ : ∃ m, n = m + 1 := ⟨n - 1, by omega⟩
  have hbound : ((rm.GetReplica addr).2).replicas.lookup addr
      = some (rm.GetReplica addr).1 := rm.lookup_getReplica_self addr
  have hrest := runSame_of_lookup (rm.GetReplica addr).2 addr _ hbound m
  have h1 : (runSame rm addr (m + 1)).1
      = List.replicate (m + 1) (rm.GetReplica addr).1 := by
    simp only [runSame]
    rw [hrest]
    simp [List.replicate_succ]
  have h2 : (runSame rm addr (m + 1)).2 = (rm.GetReplica addr).2 := by
    simp only [runSame]
    rw [hrest]
  have hstep := rm.getReplica_of_lookup_none addr h
  refine ⟨h1, ?_, ?_⟩
  · rw [h2, hstep]
  · rw [h2, hstep]
    simp [ReplicaManager.ReplicaCount]

/-- Witness for C9: two serialized calls for one fresh address on the empty
pool. -/
theorem concurrent_getReplica_single_creation_witness :
    2 ≤ 2 ∧
    ((runSame NewReplicaManager "10.0.0.1:34801" 2).1
        = List.replicate 2 (NewReplicaManager.GetReplica "10.0.0.1:34801").1 ∧
     (runSame NewReplicaManager "10.0.0.1:34801" 2).2.nextId = NewReplicaManager.nextId + 1 ∧
     (runSame NewReplicaManager "10.0.0.1:34801" 2).2.ReplicaCount
        = NewReplicaManager.ReplicaCount + 1) :=
  ⟨by decide,
   concurrent_getReplica_single_creation NewReplicaManager "10.0.0.1:34801" 2 (by decide) rfl⟩

/-- C10: `Close` removes nothing from the address→session map: the pool
state, hence `ReplicaCount`, is identical after `Close`, and a `GetReplica`
call for an address registered before `Close` returns the same (already
closed) session instance with no fresh construction and no state change. -/
theorem close_frame_preserves_map (rm : ReplicaManager) (f : Nat → Option GoError) :
    ((rm.Close f).2.1).ReplicaCount = rm.ReplicaCount ∧
    ∀ addr s, rm.replicas.lookup addr = some s →
      ((rm.Close f).2.1).GetReplica addr = (s, (rm.Close f).2.1) :=
  ⟨rfl, fun _ _ h => ReplicaManager.getReplica_of_lookup _ _ _ h⟩

/-- Witness for C10, at a pool holding one registered session. -/
theorem close_frame_preserves_map_witness :
    (((ReplicaManager.mk [("10.0.0.1:34801", SessionRef.mk 0 "10.0.0.1:34801")] 1).Close
        (fun _ => none)).2.1).ReplicaCount
      = (ReplicaManager.mk [("10.0.0.1:34801", SessionRef.mk 0 "10.0.0.1:34801")] 1).ReplicaCount ∧
    (((ReplicaManager.mk [("10.0.0.1:34801", SessionRef.mk 0 "10.0.0.1:34801")] 1).Close
        (fun _ => none)).2.1).GetReplica "10.0.0.1:34801"
      = (SessionRef.mk 0 "10.0.0.1:34801",
         ((ReplicaManager.mk [("10.0.0.1:34801", SessionRef.mk 0 "10.0.0.1:34801")] 1).Close
            (fun _ => none)).2.1) :=
  ⟨(close_frame_preserves_map
      (ReplicaManager.mk [("10.0.0.1:34801", SessionRef.mk 0 "10.0.0.1:34801")] 1)
      (fun _ => none)).1,
   (close_frame_preserves_map
      (ReplicaManager.mk [("10.0.0.1:34801", SessionRef.mk 0 "10.0.0.1:34801")] 1)
      (fun _ => none)).2 "10.0.0.1:34801" (SessionRef.mk 0 "10.0.0.1:34801")
      (by simp [List.lookup_cons])⟩

/-! ## Claims about the session façade -/

/-- C1 (code bug — the unchecked-assertion fault §9 of the spec flags): when
the generic call primitive returns without a transport error but the Result
Union's dynamic type does not match the operation `Get` issued (here: a
put-result carrying a success value), `Get` performs an unchecked type
assertion with a discarded ok flag and returns a nil payload together with a
NIL error — no discriminant check, no loud failure, silently producing the
zero-valued (absent) success object. -/
theorem get_unchecked_discriminant_bug :
    ((ReplicaSession.mk fun _ _ _ _ =>
        (some (CallValue.rrdbPutResult (some (UpdateResponse.mk 5))), none)).Get
      (Context.mk 0) (Gpid.mk 1 2) (Blob.mk [])).1 = (none, none) := rfl

/-- C2: every typed operation method issues exactly one generic call,
forwarding the context, the partition identifier and the caller's request
payload verbatim inside the operation's request envelope, tagged with that
operation's fixed wire name; and when the primitive reports success with the
matching discriminant, the method returns the union's success payload
verbatim with a nil error. -/
theorem typed_methods_one_call_verbatim (rs : ReplicaSession) (ctx : Context)
    (gpid : Gpid) :
    (∀ key, (rs.Get ctx gpid key).2
        = [CallRecord.mk ctx gpid (CallArgs.rrdbGetArgs key) "RPC_RRDB_RRDB_GET"] ∧
      ∀ v, rs.call ctx gpid (CallArgs.rrdbGetArgs key) "RPC_RRDB_RRDB_GET"
          = (some (CallValue.rrdbGetResult (some v)), none) →
        (rs.Get ctx gpid key).1 = (some v, none)) ∧
    (∀ key value, (rs.Put ctx gpid key value).2
        = [CallRecord.mk ctx gpid (CallArgs.rrdbPutArgs (UpdateRequest.mk key value))
            "RPC_RRDB_RRDB_PUT"] ∧
      ∀ v, rs.call ctx gpid (CallArgs.rrdbPutArgs (UpdateRequest.mk key value))
          "RPC_RRDB_RRDB_PUT"
          = (some (CallValue.rrdbPutResult (some v)), none) →
        (rs.Put ctx gpid key value).1 = (some v, none)) ∧
    (∀ key, (rs.Del ctx gpid key).2
        = [CallRecord.mk ctx gpid (CallArgs.rrdbRemoveArgs key) "RPC_RRDB_RRDB_REMOVE"] ∧
      ∀ v, rs.call ctx gpid (CallArgs.rrdbRemoveArgs key) "RPC_RRDB_RRDB_REMOVE"
          = (some (CallValue.rrdbRemoveResult (some v)), none) →
        (rs.Del ctx gpid key).1 = (some v, none)) ∧
    (∀ r, (rs.MultiGet ctx gpid r).2
        = [CallRecord.mk ctx gpid (CallArgs.rrdbMultiGetArgs r) "RPC_RRDB_RRDB_MULTI_GET"] ∧
      ∀ v, rs.call ctx gpid (CallArgs.rrdbMultiGetArgs r) "RPC_RRDB_RRDB_MULTI_GET"
          = (some (CallValue.rrdbMultiGetResult (some v)), none) →
        (rs.MultiGet ctx gpid r).1 = (some v, none)) ∧
    (∀ r, (rs.MultiSet ctx gpid r).2
        = [CallRecord.mk ctx gpid (CallArgs.rrdbMultiPutArgs r) "RPC_RRDB_RRDB_MULTI_PUT"] ∧
      ∀ v, rs.call ctx gpid (CallArgs.rrdbMultiPutArgs r) "RPC_RRDB_RRDB_MULTI_PUT"
          = (some (CallValue.rrdbMultiPutResult (some v)), none) →
        (rs.MultiSet ctx gpid r).1 = (some v, none)) ∧
    (∀ r, (rs.MultiDelete ctx gpid r).2
        = [CallRecord.mk ctx gpid (CallArgs.rrdbMultiRemoveArgs r)
            "RPC_RRDB_RRDB_MULTI_REMOVE"] ∧
      ∀ v, rs.call ctx gpid (CallArgs.rrdbMultiRemoveArgs r) "RPC_RRDB_RRDB_MULTI_REMOVE"
          = (some (CallValue.rrdbMultiRemoveResult (some v)), none) →
        (rs.MultiDelete ctx gpid r).1 = (some v, none)) ∧
    (∀ key, (rs.TTL ctx gpid key).2
        = [CallRecord.mk ctx gpid (CallArgs.rrdbTTLArgs key) "RPC_RRDB_RRDB_TTL"] ∧
      ∀ v, rs.call ctx gpid (CallArgs.rrdbTTLArgs key) "RPC_RRDB_RRDB_TTL"
          = (some (CallValue.rrdbTTLResult (some v)), none) →
        (rs.TTL ctx gpid key).1 = (some v, none)) ∧
    (∀ r, (rs.GetScanner ctx gpid r).2
        = [CallRecord.mk ctx gpid (CallArgs.rrdbGetScannerArgs r)
            "RPC_RRDB_RRDB_GET_SCANNER"] ∧
      ∀ v, rs.call ctx gpid (CallArgs.rrdbGetScannerArgs r) "RPC_RRDB_RRDB_GET_SCANNER"
          = (some (CallValue.rrdbGetScannerResult (some v)), none) →
        (rs.GetScanner ctx gpid r).1 = (some v, none)) ∧
    (∀ r, (rs.Scan ctx gpid r).2
        = [CallRecord.mk ctx gpid (CallArgs.rrdbScanArgs r) "RPC_RRDB_RRDB_SCAN"] ∧
      ∀ v, rs.call ctx gpid (CallArgs.rrdbScanArgs r) "RPC_RRDB_RRDB_SCAN"
          = (some (CallValue.rrdbScanResult (some v)), none) →
        (rs.Scan ctx gpid r).1 = (some v, none)) := by
  refine ⟨?_, ?_, ?_, ?_, ?_, ?_, ?_, ?_, ?_⟩ <;> intros <;> refine ⟨rfl, ?_⟩ <;>
    intro v h <;>
    simp [ReplicaSession.Get, ReplicaSession.Put, ReplicaSession.Del,
      ReplicaSession.MultiGet, ReplicaSession.MultiSet, ReplicaSession.MultiDelete,
      ReplicaSession.TTL, ReplicaSession.GetScanner, ReplicaSession.Scan, h,
      asRrdbGetResult, asRrdbPutResult, asRrdbRemoveResult, asRrdbMultiGetResult,
      asRrdbMultiPutResult, asRrdbMultiRemoveResult, asRrdbTTLResult,
      asRrdbGetScannerResult, asRrdbScanResult, getSuccess]

/-- Witness for C2, at a call primitive answering each operation with a
successful result of the matching type. -/
theorem typed_methods_one_call_verbatim_witness :
    ((sampleSuccessSession.Get (Context.mk 0) (Gpid.mk 1 2) (Blob.mk [3])).2
        = [CallRecord.mk (Context.mk 0) (Gpid.mk 1 2)
            (CallArgs.rrdbGetArgs (Blob.mk [3])) "RPC_RRDB_RRDB_GET"]) ∧
    ((sampleSuccessSession.Get (Context.mk 0) (Gpid.mk 1 2) (Blob.mk [3])).1
        = (some (ReadResponse.mk 1), none)) ∧
    ((sampleSuccessSession.Put (Context.mk 0) (Gpid.mk 1 2) (Blob.mk [3]) (Blob.mk [4])).1
        = (some (UpdateResponse.mk 2), none)) ∧
    ((sampleSuccessSession.Del (Context.mk 0) (Gpid.mk 1 2) (Blob.mk [3])).1
        = (some (UpdateResponse.mk 3), none)) ∧
    ((sampleSuccessSession.MultiGet (Context.mk 0) (Gpid.mk 1 2) (MultiGetRequest.mk 0)).1
        = (some (MultiGetResponse.mk 4), none)) ∧
    ((sampleSuccessSession.MultiSet (Context.mk 0) (Gpid.mk 1 2) (MultiPutRequest.mk 0)).1
        = (some (UpdateResponse.mk 5), none)) ∧
    ((sampleSuccessSession.MultiDelete (Context.mk 0) (Gpid.mk 1 2) (MultiRemoveRequest.mk 0)).1
        = (some (MultiRemoveResponse.mk 6), none)) ∧
    ((sampleSuccessSession.TTL (Context.mk 0) (Gpid.mk 1 2) (Blob.mk [3])).1
        = (some (TTLResponse.mk 7), none)) ∧
    ((sampleSuccessSession.GetScanner (Context.mk 0) (Gpid.mk 1 2) (GetScannerRequest.mk 0)).1
        = (some (ScanResponse.mk 8), none)) ∧
    ((sampleSuccessSession.Scan (Context.mk 0) (Gpid.mk 1 2) (ScanRequest.mk 0)).1
        = (some (ScanResponse.mk 9), none)) := by
  have h := typed_methods_one_call_verbatim sampleSuccessSession (Context.mk 0) (Gpid.mk 1 2)
  exact ⟨(h.1 (Blob.mk [3])).1,
    (h.1 (Blob.mk [3])).2 _ rfl,
    (h.2.1 (Blob.mk [3]) (Blob.mk [4])).2 _ rfl,
    (h.2.2.1 (Blob.mk [3])).2 _ rfl,
    (h.2.2.2.1 (MultiGetRequest.mk 0)).2 _ rfl,
    (h.2.2.2.2.1 (MultiPutRequest.mk 0)).2 _ rfl,
    (h.2.2.2.2.2.1 (MultiRemoveRequest.mk 0)).2 _ rfl,
    (h.2.2.2.2.2.2.1 (Blob.mk [3])).2 _ rfl,
    (h.2.2.2.2.2.2.2.1 (GetScannerRequest.mk 0)).2 _ rfl,
    (h.2.2.2.2.2.2.2.2 (ScanRequest.mk 0)).2 _ rfl⟩

/-- C5 counterexample, refuting the clause "callers never receive both a
payload and an error, nor neither": with a transport-error-free call whose
Result Union has its success arm unset (a non-success discriminant), `Get`
returns a nil payload AND a nil error — the caller receives neither. -/
theorem get_neither_payload_nor_error_cex :
    ((ReplicaSession.mk fun _ _ _ _ =>
        (some (CallValue.rrdbGetResult none), none)).Get
      (Context.mk 0) (Gpid.mk 1 2) (Blob.mk [])).1 = (none, none) := rfl

/-- C5 amended: when the generic call primitive reports a transport/context
failure, every typed operation method returns that error value unchanged and
no success payload; the complementary guarantee (never a payload together
with an error) also holds, but on the success path the payload may be nil
with a nil error (see the counterexample), so "never neither" fails. -/
theorem transport_error_propagated (rs : ReplicaSession) (ctx : Context)
    (gpid : Gpid) (e : GoError)
    (h : ∀ g a n, (rs.call ctx g a n).2 = some e) :
    (∀ key, (rs.Get ctx gpid key).1 = (none, some e)) ∧
    (∀ key value, (rs.Put ctx gpid key value).1 = (none, some e)) ∧
    (∀ key, (rs.Del ctx gpid key).1 = (none, some e)) ∧
    (∀ r, (rs.MultiGet ctx gpid r).1 = (none, some e)) ∧
    (∀ r, (rs.MultiSet ctx gpid r).1 = (none, some e)) ∧
    (∀ r, (rs.MultiDelete ctx gpid r).1 = (none, some e)) ∧
    (∀ key, (rs.TTL ctx gpid key).1 = (none, some e)) ∧
    (∀ r, (rs.GetScanner ctx gpid r).1 = (none, some e)) ∧
    (∀ r, (rs.Scan ctx gpid r).1 = (none, some e)) ∧
    (∀ cid, (rs.ClearScanner ctx gpid cid).1 = some e) := by
  refine ⟨?_, ?_, ?_, ?_, ?_, ?_, ?_, ?_, ?_, ?_⟩ <;> intros <;>
    simp [ReplicaSession.Get, ReplicaSession.Put, ReplicaSession.Del,
      ReplicaSession.MultiGet, ReplicaSession.MultiSet, ReplicaSession.MultiDelete,
      ReplicaSession.TTL, ReplicaSession.GetScanner, ReplicaSession.Scan,
      ReplicaSession.ClearScanner, h]

/-- Witness for C5's amended claim, at a call primitive that always fails. -/
theorem transport_error_propagated_witness :
    ((sampleErrorSession.Get (Context.mk 0) (Gpid.mk 1 2) (Blob.mk [3])).1
        = (none, some (GoError.mk 9))) ∧
    ((sampleErrorSession.ClearScanner (Context.mk 0) (Gpid.mk 1 2) 4).1
        = some (GoError.mk 9)) := by
  have h := transport_error_propagated sampleErrorSession (Context.mk 0) (Gpid.mk 1 2)
    (GoError.mk 9) (fun _ _ _ => rfl)
  exact ⟨h.1 (Blob.mk [3]), h.2.2.2.2.2.2.2.2.2 4⟩

end PegasusSession
